import Mathlib

/-!
# Verification of the feel-o-cinema backend (src/app.py)

Shallow embedding of the Flask application in `src/app.py`: the session
guard, the watchlist / journal / user stores (Mongo collections modelled
as insertion-ordered lists), and the cover-collage renderer.  Each route
handler becomes a pure Lean function on an explicit `Store`, with the
Flask session passed in as an `Option String` (`session.get("user_email")`)
and external effects (Google token verification, poster HTTP fetches)
passed in as oracles.
-/

namespace FeelOCinema

/-- A movie document as stored inside a watchlist's `movies` array.
The client supplies an arbitrary payload; the only field the backend ever
inspects is `poster_path` (`movie.get("poster_path")`, which may be absent
or empty).  The remaining payload is abstracted as `title`. -/
structure Movie where
  title : String
  poster_path : Option String
deriving DecidableEq, Repr

/-- Python truthiness of `movie.get("poster_path")`: absent (`None`) and
the empty string are both falsy. -/
def Movie.hasPoster (m : Movie) : Bool :=
  match m.poster_path with
  | none => false
  | some s => s ≠ ""

/-- A document of the `watchlists` collection:
`{_id, user_email, name, movies}` (`src/app.py` lines 121-125).
`_id` is modelled as a `Nat` assigned by the store. -/
structure Watchlist where
  id : Nat
  user_email : String
  name : String
  movies : List Movie
deriving DecidableEq, Repr

/-- A document of the `journals` collection:
`{_id, user_email, movie_title, entry, date}` (`src/app.py` lines 184-189). -/
structure JournalEntry where
  id : Nat
  user_email : String
  movie_title : String
  entry : String
  date : String
deriving DecidableEq, Repr

/-- A document of the `users` collection: `{_id, email, name}`
(`src/app.py` lines 83-87). -/
structure User where
  id : Nat
  email : String
  name : String
deriving DecidableEq, Repr

/-- The three Mongo collections, each as a list in insertion order
(`find` / `find_one` without a sort return documents in natural order).
`nextId` models the ObjectId assigned by `insert_one`. -/
structure Store where
  users : List User
  watchlists : List Watchlist
  journals : List JournalEntry
  nextId : Nat
deriving DecidableEq, Repr

/-- The empty store. -/
def Store.empty : Store := ⟨[], [], [], 0⟩

/-- Errors a handler can produce.  The first three are JSON error
responses (`jsonify({"error": ...}), status`).  `keyError` models an
unhandled Python `KeyError` from `data["movie"]`-style indexing: it is an
exception propagating out of the handler, not a JSON response. -/
inductive Err where
  | unauthorized
  | duplicateName
  | notFound
  | keyError (key : String)
deriving DecidableEq, Repr

/-- The HTTP status of the JSON error response, or `none` for an
unhandled exception (which never reaches the JSON error path). -/
def Err.httpStatus : Err → Option Nat
  | .unauthorized => some 401
  | .duplicateName => some 400
  | .notFound => some 404
  | .keyError _ => none

/-- `session.get("user_email")` followed by the guard `if not user_email`:
a missing key and a falsy (empty) value are both rejected. -/
def sessionEmail (sess : Option String) : Option String :=
  match sess with
  | none => none
  | some e => if e = "" then none else some e

/-- The `find_one({"user_email": .., "name": ..})` predicate used by the
watchlist routes. -/
def wlMatches (email wname : String) (w : Watchlist) : Bool :=
  w.user_email == email && w.name == wname

/-- `POST /watchlist` (`create_watchlist`, `src/app.py` lines 102-129).
Guard, duplicate-name check via `find_one`, then `insert_one` of a
watchlist with an empty `movies` array. -/
def create_watchlist (sess : Option String) (wname : String) (st : Store) :
    Except Err Watchlist × Store :=
  match sessionEmail sess with
  | none => (.error .unauthorized, st)
  | some email =>
    match st.watchlists.find? (wlMatches email wname) with
    | some _ => (.error .duplicateName, st)
    | none =>
      let w : Watchlist := ⟨st.nextId, email, wname, []⟩
      (.ok w, { st with watchlists := st.watchlists ++ [w], nextId := st.nextId + 1 })

/-- `update_one(filter, {"$push": {"movies": m}})`: pushes `m` onto the
first document matching `filter`, returning the updated list and the
`modified_count`. -/
def updateOnePush (email wname : String) (m : Movie) :
    List Watchlist → List Watchlist × Nat
  | [] => ([], 0)
  | w :: ws =>
    if wlMatches email wname w then
      ({ w with movies := w.movies ++ [m] } :: ws, 1)
    else
      let r := updateOnePush email wname m ws
      (w :: r.1, r.2)

/-- `PUT /watchlist/<name>` (`add_movie_to_watchlist`, `src/app.py`
lines 131-144).  The request body is `request.json`; `body_movie` is its
`"movie"` entry, `none` when the key is absent, in which case
`data["movie"]` raises a `KeyError` before any store access. -/
def add_movie_to_watchlist (sess : Option String) (wname : String)
    (body_movie : Option Movie) (st : Store) : Except Err Unit × Store :=
  match sessionEmail sess with
  | none => (.error .unauthorized, st)
  | some email =>
    match body_movie with
    | none => (.error (.keyError "movie"), st)
    | some m =>
      let r := updateOnePush email wname m st.watchlists
      if r.2 > 0 then
        (.ok (), { st with watchlists := r.1 })
      else
        (.error .notFound, { st with watchlists := r.1 })

/-- `GET /watchlist` (`get_watchlists`, `src/app.py` lines 146-156):
`find({"user_email": user_email})`. -/
def get_watchlists (sess : Option String) (st : Store) :
    Except Err (List Watchlist) × Store :=
  match sessionEmail sess with
  | none => (.error .unauthorized, st)
  | some email =>
    (.ok (st.watchlists.filter (fun w => w.user_email == email)), st)

/-- `GET /watchlist/<name>` (`get_watchlist`, `src/app.py` lines 158-172). -/
def get_watchlist (sess : Option String) (wname : String) (st : Store) :
    Except Err Watchlist × Store :=
  match sessionEmail sess with
  | none => (.error .unauthorized, st)
  | some email =>
    match st.watchlists.find? (wlMatches email wname) with
    | none => (.error .notFound, st)
    | some w => (.ok w, st)

/-- `POST /journal` (`add_journal_entry`, `src/app.py` lines 177-193):
unconditional `insert_one`. -/
def add_journal_entry (sess : Option String)
    (movie_title entry date : String) (st : Store) :
    Except Err JournalEntry × Store :=
  match sessionEmail sess with
  | none => (.error .unauthorized, st)
  | some email =>
    let j : JournalEntry := ⟨st.nextId, email, movie_title, entry, date⟩
    (.ok j, { st with journals := st.journals ++ [j], nextId := st.nextId + 1 })

/-- `GET /journal` (`get_journal_entries`, `src/app.py` lines 195-204):
`find({"user_email": user_email})`. -/
def get_journal_entries (sess : Option String) (st : Store) :
    Except Err (List JournalEntry) × Store :=
  match sessionEmail sess with
  | none => (.error .unauthorized, st)
  | some email =>
    (.ok (st.journals.filter (fun j => j.user_email == email)), st)

/-- A decoded raster image as produced by `Image.open` on fetched poster
bytes: an opaque identity plus its pixel dimensions. -/
structure RawImg where
  id : Nat
  width : Nat
  height : Nat
deriving DecidableEq, Repr

/-- A PIL image value, as a term tracking exactly the operations the
cover route performs: a decoded fetch (`Image.open`), `resize`,
`Image.new(mode, size)` (a blank canvas) and `paste` at a pixel offset. -/
inductive PImage where
  | raw : RawImg → PImage
  | resize : PImage → Nat → Nat → PImage
  | new : String → Nat → Nat → PImage
  | paste : PImage → PImage → Nat → Nat → PImage
deriving DecidableEq, Repr

/-- The width of a PIL image (a `resize`/`new` fixes it; `paste` edits
the base in place). -/
def PImage.width : PImage → Nat
  | .raw r => r.width
  | .resize _ w _ => w
  | .new _ w _ => w
  | .paste b _ _ _ => b.width

/-- The height of a PIL image. -/
def PImage.height : PImage → Nat
  | .raw r => r.height
  | .resize _ _ h => h
  | .new _ _ h => h
  | .paste b _ _ _ => b.height

/-- The underlying image a sequence of pastes was applied to. -/
def PImage.base : PImage → PImage
  | .paste b _ _ _ => b.base
  | i => i

/-- The pastes applied to an image, in order: each entry is the pasted
image and its (x, y) offset. -/
def PImage.pastes : PImage → List (PImage × Nat × Nat)
  | .paste b img x y => b.pastes ++ [(img, x, y)]
  | _ => []

/-- Outcome of `requests.get(url)` on a poster URL: `raised` when the
call raises (connection failure, timeout — there is no `try` around it in
the route), or a completed HTTP response with its status code and, for an
image body, the decoded image. -/
inductive FetchOutcome where
  | raised
  | resp (status : Nat) (img : RawImg)
deriving DecidableEq, Repr

/-- A fetch oracle standing for the external poster origin. -/
def Fetch : Type := String → FetchOutcome

/-- The poster URL template
`f"https://image.tmdb.org/t/p/w500{movie['poster_path']}"`. -/
def posterUrl (poster_path : String) : String :=
  "https://image.tmdb.org/t/p/w500" ++ poster_path

/-- The poster-collection loop of the cover route (`src/app.py` lines
227-232): for each movie with a truthy `poster_path`, fetch the poster;
append the decoded image exactly when the status is 200.  A raising
fetch aborts the whole loop (the exception is unhandled), modelled as
`Except.error`. -/
def collectPosters (fetch : Fetch) : List Movie → Except Unit (List PImage)
  | [] => .ok []
  | m :: ms =>
    if m.hasPoster then
      match fetch (posterUrl (m.poster_path.getD "")) with
      | .raised => .error ()
      | .resp status img =>
        if status = 200 then
          (collectPosters fetch ms).map (fun ps => PImage.raw img :: ps)
        else
          collectPosters fetch ms
    else
      collectPosters fetch ms

/-- The response of `GET /watchlist/<name>/cover`: a JSON error
(401/404), the bundled `static/default-cover.jpg`, an image encoded with
`collage.save(img_io, 'JPEG', quality=q)`, or an unhandled exception
escaping the handler. -/
inductive CoverResult where
  | err : Err → CoverResult
  | defaultCover : CoverResult
  | jpeg : PImage → Nat → CoverResult
  | raised : CoverResult
deriving DecidableEq, Repr

/-- The content type of a successful cover response (`send_file(...,
mimetype='image/jpeg')` in both image branches). -/
def CoverResult.mimetype : CoverResult → Option String
  | .defaultCover => some "image/jpeg"
  | .jpeg _ _ => some "image/jpeg"
  | _ => none

/-- The grid-composition branch for 2 or more posters (`src/app.py`
lines 239-252): `cols = min(2, n)`, `rows = math.ceil(n / cols)`
(written on naturals as `(n + cols - 1) / cols`), every poster resized
to 600 x 900, pasted row-major onto a blank RGB canvas. -/
def composeCollage (posters : List PImage) : PImage :=
  let cols := min 2 posters.length
  let rows := (posters.length + cols - 1) / cols
  let resized := posters.map (fun p => PImage.resize p 600 900)
  resized.enum.foldl
    (fun acc pr =>
      PImage.paste acc pr.2 ((pr.1 % cols) * 600) ((pr.1 / cols) * 900))
    (PImage.new "RGB" (600 * cols) (900 * rows))

/-- `GET /watchlist/<name>/cover` (`get_watchlist_cover`, `src/app.py`
lines 209-258).  The store is returned unchanged: the route never
writes. -/
def get_watchlist_cover (fetch : Fetch) (sess : Option String)
    (name : String) (st : Store) : CoverResult × Store :=
  match sessionEmail sess with
  | none => (.err .unauthorized, st)
  | some email =>
    match st.watchlists.find? (wlMatches email name) with
    | none => (.err .notFound, st)
    | some w =>
      match collectPosters fetch (w.movies.take 4) with
      | .error _ => (.raised, st)
      | .ok posters =>
        match posters with
        | [] => (.defaultCover, st)
        | [p] => (.jpeg p 85, st)
        | _ => (.jpeg (composeCollage posters) 85, st)

/-- The verified claims of a Google ID token. -/
structure IdInfo where
  email : String
  name : String
deriving DecidableEq, Repr

/-- An oracle for `id_token.verify_oauth2_token`: yields the verified
claims or fails with the provider's error message. -/
def Verify : Type := String → Except String IdInfo

/-- `POST /auth/google` (`google_auth`, `src/app.py` lines 70-97).
On verification failure the `except` branch returns a 401 JSON error;
the session and the store are untouched.  On success: look up the user
by email, insert a fresh one when absent (never updating an existing
record), and bind the session to the user's email.  Returns
(result, store, session). -/
def google_auth (verify : Verify) (token : String) (st : Store)
    (sess : Option String) : Except String User × Store × Option String :=
  match verify token with
  | .error e => (.error e, st, sess)
  | .ok info =>
    match st.users.find? (fun u => u.email == info.email) with
    | some u => (.ok u, st, some u.email)
    | none =>
      let u : User := ⟨st.nextId, info.email, info.name⟩
      (.ok u,
       { st with users := st.users ++ [u], nextId := st.nextId + 1 },
       some u.email)

/-- The poster list as the specification describes it: among the first
movies considered, those with a truthy `poster_path` whose fetch
completed with status 200, in movie-sequence order.  Stated alongside
`collectPosters` (the loop translated from the source) and proved equal
to it whenever no fetch raises. -/
def postersSpec (fetch : Fetch) (ms : List Movie) : List PImage :=
  ms.filterMap (fun m =>
    if m.hasPoster then
      match fetch (posterUrl (m.poster_path.getD "")) with
      | .resp 200 img => some (PImage.raw img)
      | _ => none
    else none)

/-- The HTTP status of the `/auth/google` response: 200 on the success
path, 401 in the `except` branch (`src/app.py` line 97). -/
def google_auth_status : Except String User → Nat
  | .ok _ => 200
  | .error _ => 401

/-! ## Helper lemmas -/

theorem updateOnePush_length (e n : String) (m : Movie) :
    ∀ ws : List Watchlist, (updateOnePush e n m ws).1.length = ws.length := by
  intro ws
  induction ws with
  | nil => rfl
  | cons w ws ih =>
    by_cases h : wlMatches e n w = true
    · simp [updateOnePush, h]
    · simp [updateOnePush, h, ih]

theorem updateOnePush_of_no_match (e n : String) (m : Movie) :
    ∀ ws : List Watchlist, (∀ w ∈ ws, wlMatches e n w = false) →
      updateOnePush e n m ws = (ws, 0) := by
  intro ws
  induction ws with
  | nil => intro _; rfl
  | cons w ws ih =>
    intro h
    have hw : wlMatches e n w = false := h w (List.mem_cons_self w ws)
    have hws := ih (fun x hx => h x (List.mem_cons_of_mem w hx))
    simp [updateOnePush, hw, hws]

theorem updateOnePush_of_split (e n : String) (m : Movie)
    (l₁ : List Watchlist) (w : Watchlist) (l₂ : List Watchlist)
    (h₁ : ∀ x ∈ l₁, wlMatches e n x = false) (h₂ : wlMatches e n w = true) :
    updateOnePush e n m (l₁ ++ w :: l₂) =
      (l₁ ++ { w with movies := w.movies ++ [m] } :: l₂, 1) := by
  induction l₁ with
  | nil => simp [updateOnePush, h₂]
  | cons a l ih =>
    have ha : wlMatches e n a = false := h₁ a (List.mem_cons_self a l)
    have hl := ih (fun x hx => h₁ x (List.mem_cons_of_mem a hx))
    simp [updateOnePush, ha, hl]

theorem updateOnePush_get (e n : String) (m : Movie) :
    ∀ (ws : List Watchlist) (i : Nat) (hi : i < ws.length)
      (hi' : i < (updateOnePush e n m ws).1.length),
      (updateOnePush e n m ws).1.get ⟨i, hi'⟩ = ws.get ⟨i, hi⟩ ∨
        wlMatches e n (ws.get ⟨i, hi⟩) = true := by
  intro ws
  induction ws with
  | nil => intro i hi _; exact absurd hi (Nat.not_lt_zero i)
  | cons w ws ih =>
    intro i hi hi'
    by_cases hw : wlMatches e n w = true
    · cases i with
      | zero => right; exact hw
      | succ j =>
        left
        simp [updateOnePush, hw]
    · cases i with
      | zero => left; simp [updateOnePush, hw]
      | succ j =>
        have hj : j < ws.length := Nat.lt_of_succ_lt_succ hi
        have hj' : j < (updateOnePush e n m ws).1.length := by
          rw [updateOnePush_length]; exact hj
        have := ih j hj hj'
        simpa [updateOnePush, hw, List.get] using this

theorem find?_filter_of_imp {α : Type} (p q : α → Bool)
    (hpq : ∀ x, p x = true → q x = true) :
    ∀ l : List α, (l.filter q).find? p = l.find? p := by
  intro l
  induction l with
  | nil => rfl
  | cons a l ih =>
    by_cases hq : q a = true
    · by_cases hp : p a = true
      · simp [List.filter, List.find?, hq, hp]
      · simp [List.filter, List.find?, hq, hp, ih]
    · have hp : p a = false := by
        cases hpa : p a with
        | false => rfl
        | true => exact absurd (hpq a hpa) hq
      simp [List.filter, List.find?, hq, hp, ih]

theorem collectPosters_eq_spec (fetch : Fetch) :
    ∀ ms : List Movie,
      (∀ m ∈ ms, m.hasPoster = true →
        fetch (posterUrl (m.poster_path.getD "")) ≠ .raised) →
      collectPosters fetch ms = .ok (postersSpec fetch ms) := by
  intro ms
  induction ms with
  | nil => intro _; rfl
  | cons m ms ih =>
    intro h
    have hms := ih (fun x hx => h x (List.mem_cons_of_mem m hx))
    by_cases hp : m.hasPoster = true
    · have hnr := h m (List.mem_cons_self m ms) hp
      cases hf : fetch (posterUrl (m.poster_path.getD "")) with
      | raised => exact absurd hf hnr
      | resp status img =>
        by_cases hs : status = 200
        · subst hs
          simp [collectPosters, postersSpec, hp, hf, hms, Except.map]
        · simp [collectPosters, postersSpec, hp, hf, hs, hms]
    · have hp' : m.hasPoster = false := by
        cases hpp : m.hasPoster with
        | false => rfl
        | true => exact absurd hpp hp
      simp [collectPosters, postersSpec, hp', hms]

theorem collectPosters_all_raw (fetch : Fetch) :
    ∀ (ms : List Movie) (ps : List PImage),
      collectPosters fetch ms = .ok ps →
      ∀ p ∈ ps, ∃ r : RawImg, p = PImage.raw r := by
  intro ms
  induction ms with
  | nil =>
    intro ps hps
    simp only [collectPosters, Except.ok.injEq] at hps
    subst hps
    intro p hp
    exact absurd hp (List.not_mem_nil p)
  | cons m ms ih =>
    intro ps hps
    by_cases hp : m.hasPoster = true
    · rcases hf : fetch (posterUrl (m.poster_path.getD "")) with _ | ⟨status, img⟩
      · simp [collectPosters, hp, hf] at hps
      · by_cases hs : status = 200
        · subst hs
          simp only [collectPosters, hp, if_true, hf] at hps
          cases hrec : collectPosters fetch ms with
          | error e => rw [hrec] at hps; simp [Except.map] at hps
          | ok qs =>
            rw [hrec] at hps
            simp only [Except.map, Except.ok.injEq] at hps
            subst hps
            intro p hpmem
            rcases List.mem_cons.mp hpmem with h0 | h1
            · exact ⟨img, h0⟩
            · exact ih qs hrec p h1
        · simp only [collectPosters, hp, if_true, hf, hs, if_false] at hps
          exact ih ps hps
    · have hp' : m.hasPoster = false := by
        cases hpp : m.hasPoster with
        | false => rfl
        | true => exact absurd hpp hp
      simp only [collectPosters, hp', Bool.false_eq_true, if_false] at hps
      exact ih ps hps

theorem pasteFold_base (cols : Nat) :
    ∀ (l : List (Nat × PImage)) (base : PImage),
      (l.foldl
        (fun acc pr =>
          PImage.paste acc pr.2 ((pr.1 % cols) * 600) ((pr.1 / cols) * 900))
        base).base = base.base := by
  intro l
  induction l with
  | nil => intro base; rfl
  | cons a l ih =>
    intro base
    simp only [List.foldl_cons, ih]
    rfl

theorem pasteFold_pastes (cols : Nat) :
    ∀ (l : List (Nat × PImage)) (base : PImage),
      (l.foldl
        (fun acc pr =>
          PImage.paste acc pr.2 ((pr.1 % cols) * 600) ((pr.1 / cols) * 900))
        base).pastes =
        base.pastes ++
          l.map (fun pr => (pr.2, (pr.1 % cols) * 600, (pr.1 / cols) * 900)) := by
  intro l
  induction l with
  | nil => intro base; simp
  | cons a l ih =>
    intro base
    simp only [List.foldl_cons, List.map_cons, ih, PImage.pastes]
    simp

theorem pasteFold_width (cols : Nat) :
    ∀ (l : List (Nat × PImage)) (base : PImage),
      (l.foldl
        (fun acc pr =>
          PImage.paste acc pr.2 ((pr.1 % cols) * 600) ((pr.1 / cols) * 900))
        base).width = base.width := by
  intro l
  induction l with
  | nil => intro base; rfl
  | cons a l ih =>
    intro base
    simp only [List.foldl_cons, ih]
    rfl

theorem pasteFold_height (cols : Nat) :
    ∀ (l : List (Nat × PImage)) (base : PImage),
      (l.foldl
        (fun acc pr =>
          PImage.paste acc pr.2 ((pr.1 % cols) * 600) ((pr.1 / cols) * 900))
        base).height = base.height := by
  intro l
  induction l with
  | nil => intro base; rfl
  | cons a l ih =>
    intro base
    simp only [List.foldl_cons, ih]
    rfl

theorem collectPosters_of_no_poster (fetch : Fetch) :
    ∀ ms : List Movie, (∀ m ∈ ms, m.hasPoster = false) →
      collectPosters fetch ms = .ok [] := by
  intro ms
  induction ms with
  | nil => intro _; rfl
  | cons m ms ih =>
    intro h
    have hm : m.hasPoster = false := h m (List.mem_cons_self m ms)
    have hms := ih (fun x hx => h x (List.mem_cons_of_mem m hx))
    simp [collectPosters, hm, hms]

theorem enumFrom_map_pimage (f : PImage → PImage) :
    ∀ (l : List PImage) (n : Nat),
      (l.map f).enumFrom n = (l.enumFrom n).map (fun pr => (pr.1, f pr.2)) := by
  intro l
  induction l with
  | nil => intro n; rfl
  | cons a l ih =>
    intro n
    simp only [List.map_cons, List.enumFrom, ih]

theorem enum_map_pimage (f : PImage → PImage) (l : List PImage) :
    (l.map f).enum = l.enum.map (fun pr => (pr.1, f pr.2)) :=
  enumFrom_map_pimage f l 0

/-! ## Claim theorems -/

/-- Claim C1: for every session-guarded operation (createWatchlist,
addMovie, listWatchlists, getWatchlist, renderCover, addEntry,
listEntries), if the session context carries no `user_email`, the
operation returns `UnauthorizedError` (401) and performs no store
access: the response is the same for every store, and the store is
returned unchanged. -/
theorem C1_unauthorized_guard (sess : Option String)
    (h : sessionEmail sess = none) (wname mt en dt : String)
    (bm : Option Movie) (fetch : Fetch) (st : Store) :
    create_watchlist sess wname st = (.error .unauthorized, st) ∧
    add_movie_to_watchlist sess wname bm st = (.error .unauthorized, st) ∧
    get_watchlists sess st = (.error .unauthorized, st) ∧
    get_watchlist sess wname st = (.error .unauthorized, st) ∧
    get_watchlist_cover fetch sess wname st = (.err .unauthorized, st) ∧
    add_journal_entry sess mt en dt st = (.error .unauthorized, st) ∧
    get_journal_entries sess st = (.error .unauthorized, st) ∧
    Err.unauthorized.httpStatus = some 401 := by
  refine ⟨?_, ?_, ?_, ?_, ?_, ?_, ?_, rfl⟩
  · simp [create_watchlist, h]
  · simp [add_movie_to_watchlist, h]
  · simp [get_watchlists, h]
  · simp [get_watchlist, h]
  · simp [get_watchlist_cover, h]
  · simp [add_journal_entry, h]
  · simp [get_journal_entries, h]

/-- Witness for C1 at a concrete unauthenticated session (empty
`user_email`, falsy in Python) and a concrete store. -/
theorem C1_unauthorized_guard_witness :
    sessionEmail (some "") = none ∧
    create_watchlist (some "") "Favorites" Store.empty =
      (.error .unauthorized, Store.empty) :=
  ⟨rfl,
   (C1_unauthorized_guard (some "") rfl "Favorites" "Dune" "great" "2024-01-01"
      none (fun _ => .raised) Store.empty).1⟩

/-- Claim C6: an authenticated createWatchlist(name) fails with
`DuplicateNameError` (400) and leaves the store unchanged when a
watchlist with the session's (owner_email, name) pair exists —
regardless of that watchlist's movie contents — and otherwise inserts a
new watchlist with an empty movie sequence and returns it with its
assigned identifier. -/
theorem C6_create_watchlist_correct (sess : Option String) (email : String)
    (h : sessionEmail sess = some email) (wname : String) (st : Store) :
    ((∃ w ∈ st.watchlists, wlMatches email wname w = true) →
      create_watchlist sess wname st = (.error .duplicateName, st) ∧
      Err.duplicateName.httpStatus = some 400) ∧
    ((∀ w ∈ st.watchlists, wlMatches email wname w = false) →
      create_watchlist sess wname st =
        (.ok ⟨st.nextId, email, wname, []⟩,
         { st with
             watchlists := st.watchlists ++ [⟨st.nextId, email, wname, []⟩],
             nextId := st.nextId + 1 })) := by
  constructor
  · intro hex
    have hsome : (st.watchlists.find? (wlMatches email wname)).isSome := by
      rw [List.find?_isSome]
      rcases hex with ⟨w, hw, hm⟩
      exact ⟨w, hw, hm⟩
    rcases Option.isSome_iff_exists.mp hsome with ⟨w, hw⟩
    refine ⟨?_, rfl⟩
    simp [create_watchlist, h, hw]
  · intro hnone
    have hfind : st.watchlists.find? (wlMatches email wname) = none := by
      rw [List.find?_eq_none]
      intro x hx
      simp [hnone x hx]
    simp [create_watchlist, h, hfind]

/-- Witness for C6: the duplicate branch at a store holding the
watchlist, and the fresh-insert branch at the empty store. -/
theorem C6_create_watchlist_correct_witness :
    sessionEmail (some "a@x.com") = some "a@x.com" ∧
    create_watchlist (some "a@x.com") "Favorites"
        { Store.empty with
            watchlists := [⟨0, "a@x.com", "Favorites", [⟨"Dune", some "/d.jpg"⟩]⟩],
            nextId := 1 } =
      (.error .duplicateName,
       { Store.empty with
           watchlists := [⟨0, "a@x.com", "Favorites", [⟨"Dune", some "/d.jpg"⟩]⟩],
           nextId := 1 }) ∧
    create_watchlist (some "a@x.com") "Favorites" Store.empty =
      (.ok ⟨0, "a@x.com", "Favorites", []⟩,
       { Store.empty with
           watchlists := [⟨0, "a@x.com", "Favorites", []⟩],
           nextId := 1 }) := by
  refine ⟨rfl, ?_, ?_⟩
  · exact (C6_create_watchlist_correct (some "a@x.com") "a@x.com" rfl "Favorites"
      { Store.empty with
          watchlists := [⟨0, "a@x.com", "Favorites", [⟨"Dune", some "/d.jpg"⟩]⟩],
          nextId := 1 }).1
      ⟨⟨0, "a@x.com", "Favorites", [⟨"Dune", some "/d.jpg"⟩]⟩, by decide⟩ |>.1
  · have := (C6_create_watchlist_correct (some "a@x.com") "a@x.com" rfl "Favorites"
      Store.empty).2 (by intro w hw; exact absurd hw (List.not_mem_nil w))
    simpa [Store.empty] using this

/-- Claim C10: an authenticated addMovie request whose JSON body lacks
the "movie" key raises an unhandled `KeyError` — not a 400/404 JSON
error response — and the store (in particular the targeted watchlist's
movie sequence) is left unchanged, the error being raised before the
store update is issued. -/
theorem C10_add_movie_missing_key (sess : Option String) (email : String)
    (h : sessionEmail sess = some email) (wname : String) (st : Store) :
    add_movie_to_watchlist sess wname none st =
      (.error (.keyError "movie"), st) ∧
    (Err.keyError "movie").httpStatus = none ∧
    Err.keyError "movie" ≠ Err.duplicateName ∧
    Err.keyError "movie" ≠ Err.notFound := by
  refine ⟨?_, rfl, by decide, by decide⟩
  simp [add_movie_to_watchlist, h]

/-- Witness for C10 at a concrete session and store. -/
theorem C10_add_movie_missing_key_witness :
    sessionEmail (some "a@x.com") = some "a@x.com" ∧
    add_movie_to_watchlist (some "a@x.com") "Favorites" none
        { Store.empty with
            watchlists := [⟨0, "a@x.com", "Favorites", []⟩], nextId := 1 } =
      (.error (.keyError "movie"),
       { Store.empty with
           watchlists := [⟨0, "a@x.com", "Favorites", []⟩], nextId := 1 }) :=
  ⟨rfl,
   (C10_add_movie_missing_key (some "a@x.com") "a@x.com" rfl "Favorites"
      { Store.empty with
          watchlists := [⟨0, "a@x.com", "Favorites", []⟩], nextId := 1 }).1⟩

/-- Claim C5: an authenticated addMovie(name, movie) appends the movie
to the end of the matching watchlist's movie sequence (existing order
preserved, duplicates allowed, length grows by exactly 1), succeeding
exactly when the underlying update modified a row; when no watchlist
matches the session's (owner_email, name), it returns `NotFoundError`
and creates nothing. -/
theorem C5_add_movie_correct (sess : Option String) (email : String)
    (h : sessionEmail sess = some email) (wname : String) (m : Movie)
    (st : Store) :
    ((∀ w ∈ st.watchlists, wlMatches email wname w = false) →
      add_movie_to_watchlist sess wname (some m) st = (.error .notFound, st) ∧
      Err.notFound.httpStatus = some 404) ∧
    (∀ (l₁ : List Watchlist) (w : Watchlist) (l₂ : List Watchlist),
      st.watchlists = l₁ ++ w :: l₂ →
      (∀ x ∈ l₁, wlMatches email wname x = false) →
      wlMatches email wname w = true →
      add_movie_to_watchlist sess wname (some m) st =
        (.ok (),
         { st with
             watchlists := l₁ ++ { w with movies := w.movies ++ [m] } :: l₂ }) ∧
      (w.movies ++ [m]).length = w.movies.length + 1 ∧
      (w.movies ++ [m]).getLast? = some m ∧
      (w.movies ++ [m]).take w.movies.length = w.movies) ∧
    ((add_movie_to_watchlist sess wname (some m) st).1 = .ok () ↔
      0 < (updateOnePush email wname m st.watchlists).2) := by
  refine ⟨?_, ?_, ?_⟩
  · intro hno
    have hup := updateOnePush_of_no_match email wname m st.watchlists hno
    refine ⟨?_, rfl⟩
    simp [add_movie_to_watchlist, h, hup]
  · intro l₁ w l₂ hsplit h₁ h₂
    have hup := updateOnePush_of_split email wname m l₁ w l₂ h₁ h₂
    refine ⟨?_, by simp, by simp, by simp⟩
    simp [add_movie_to_watchlist, h, hsplit, hup]
  · by_cases hpos : 0 < (updateOnePush email wname m st.watchlists).2
    · simp [add_movie_to_watchlist, h, hpos]
    · simp [add_movie_to_watchlist, h, hpos]

/-- Witness for C5: appending "Dune" to owner a@x.com's "Favorites"
watchlist (skipping b@y.com's identically named one listed first), and
the not-found branch at a store without a matching watchlist. -/
theorem C5_add_movie_correct_witness :
    sessionEmail (some "a@x.com") = some "a@x.com" ∧
    add_movie_to_watchlist (some "a@x.com") "Favorites"
        (some ⟨"Dune", some "/d.jpg"⟩)
        { Store.empty with
            watchlists :=
              [⟨0, "b@y.com", "Favorites", []⟩,
               ⟨1, "a@x.com", "Favorites", [⟨"Heat", none⟩]⟩],
            nextId := 2 } =
      (.ok (),
       { Store.empty with
           watchlists :=
             [⟨0, "b@y.com", "Favorites", []⟩,
              ⟨1, "a@x.com", "Favorites",
                 [⟨"Heat", none⟩, ⟨"Dune", some "/d.jpg"⟩]⟩],
           nextId := 2 }) ∧
    add_movie_to_watchlist (some "a@x.com") "Watched"
        (some ⟨"Dune", some "/d.jpg"⟩)
        { Store.empty with
            watchlists := [⟨0, "b@y.com", "Favorites", []⟩], nextId := 1 } =
      (.error .notFound,
       { Store.empty with
           watchlists := [⟨0, "b@y.com", "Favorites", []⟩], nextId := 1 }) := by
  refine ⟨rfl, ?_, ?_⟩
  · have := ((C5_add_movie_correct (some "a@x.com") "a@x.com" rfl "Favorites"
        ⟨"Dune", some "/d.jpg"⟩
        { Store.empty with
            watchlists :=
              [⟨0, "b@y.com", "Favorites", []⟩,
               ⟨1, "a@x.com", "Favorites", [⟨"Heat", none⟩]⟩],
            nextId := 2 }).2.1
      [⟨0, "b@y.com", "Favorites", []⟩]
      ⟨1, "a@x.com", "Favorites", [⟨"Heat", none⟩]⟩ [] rfl
      (by decide) (by decide)).1
    simpa using this
  · have := ((C5_add_movie_correct (some "a@x.com") "a@x.com" rfl "Watched"
        ⟨"Dune", some "/d.jpg"⟩
        { Store.empty with
            watchlists := [⟨0, "b@y.com", "Favorites", []⟩],
            nextId := 1 }).1 (by decide)).1
    simpa using this

/-- Claim C9: a successful authenticate(token) yielding verified
{email, name} creates a new User with that email and name when none
exists, leaves an existing User unmodified (first-write-wins), and in
both cases binds the session to the verified email; a verification
failure returns AuthenticationError (401), establishes no session and
creates no User. -/
theorem C9_google_auth_correct (verify : Verify) (token : String)
    (st : Store) (sess : Option String) :
    (∀ info : IdInfo, verify token = .ok info →
      ((∀ u ∈ st.users, (u.email == info.email) = false) →
        google_auth verify token st sess =
          (.ok ⟨st.nextId, info.email, info.name⟩,
           { st with
               users := st.users ++ [⟨st.nextId, info.email, info.name⟩],
               nextId := st.nextId + 1 },
           some info.email)) ∧
      (∀ u : User, st.users.find? (fun u => u.email == info.email) = some u →
        google_auth verify token st sess = (.ok u, st, some u.email) ∧
        u.email = info.email)) ∧
    (∀ e : String, verify token = .error e →
      google_auth verify token st sess = (.error e, st, sess) ∧
      google_auth_status (.error e) = 401) := by
  constructor
  · intro info hok
    constructor
    · intro habs
      have hfind : st.users.find? (fun u => u.email == info.email) = none := by
        rw [List.find?_eq_none]
        intro x hx
        simp [habs x hx]
      simp [google_auth, hok, hfind]
    · intro u hu
      have hmail : u.email = info.email := by
        have := List.find?_some hu
        exact eq_of_beq this
      refine ⟨?_, hmail⟩
      simp [google_auth, hok, hu]
  · intro e herr
    refine ⟨?_, rfl⟩
    simp [google_auth, herr]

/-- Witness for C9: a verifier accepting a single token for a@x.com;
first login against the empty store creates the user and binds the
session; a bad token is rejected with a 401, touching neither the store
nor the session. -/
theorem C9_google_auth_correct_witness :
    google_auth
        (fun t => if t = "tok" then .ok ⟨"a@x.com", "Alice"⟩ else .error "bad")
        "tok" Store.empty none =
      (.ok ⟨0, "a@x.com", "Alice"⟩,
       { Store.empty with users := [⟨0, "a@x.com", "Alice"⟩], nextId := 1 },
       some "a@x.com") ∧
    google_auth
        (fun t => if t = "tok" then .ok ⟨"a@x.com", "Alice"⟩ else .error "bad")
        "nope" Store.empty none =
      (.error "bad", Store.empty, none) := by
  constructor
  · have := (((C9_google_auth_correct
        (fun t => if t = "tok" then .ok ⟨"a@x.com", "Alice"⟩ else .error "bad")
        "tok" Store.empty none).1 ⟨"a@x.com", "Alice"⟩ rfl).1
        (by intro u hu; exact absurd hu (List.not_mem_nil u)))
    simpa [Store.empty] using this
  · exact ((C9_google_auth_correct
        (fun t => if t = "tok" then .ok ⟨"a@x.com", "Alice"⟩ else .error "bad")
        "nope" Store.empty none).2 "bad" rfl).1

/-- Claim C7: when zero posters are successfully fetched — in
particular when the watchlist has no movies, or no movie among the
first 4 carries a truthy `poster_path` — renderCover returns the
bundled default cover image with content type image/jpeg. -/
theorem C7_cover_default (fetch : Fetch) (sess : Option String)
    (email : String) (h : sessionEmail sess = some email) (name : String)
    (st : Store) (w : Watchlist)
    (hfind : st.watchlists.find? (wlMatches email name) = some w) :
    ((∀ m ∈ w.movies.take 4, m.hasPoster = false) →
      collectPosters fetch (w.movies.take 4) = .ok []) ∧
    (collectPosters fetch (w.movies.take 4) = .ok [] →
      get_watchlist_cover fetch sess name st = (.defaultCover, st) ∧
      CoverResult.defaultCover.mimetype = some "image/jpeg") := by
  constructor
  · intro hnp
    exact collectPosters_of_no_poster fetch (w.movies.take 4) hnp
  · intro hcol
    refine ⟨?_, rfl⟩
    simp [get_watchlist_cover, h, hfind, hcol]

/-- Witness for C7: a watchlist whose single movie has no poster path
produces the default cover. -/
theorem C7_cover_default_witness :
    sessionEmail (some "a@x.com") = some "a@x.com" ∧
    get_watchlist_cover (fun _ => .raised) (some "a@x.com") "Favorites"
        { Store.empty with
            watchlists := [⟨0, "a@x.com", "Favorites", [⟨"Heat", none⟩]⟩],
            nextId := 1 } =
      (.defaultCover,
       { Store.empty with
           watchlists := [⟨0, "a@x.com", "Favorites", [⟨"Heat", none⟩]⟩],
           nextId := 1 }) := by
  refine ⟨rfl, ?_⟩
  have hc := C7_cover_default (fun _ => .raised) (some "a@x.com") "a@x.com" rfl
    "Favorites"
    { Store.empty with
        watchlists := [⟨0, "a@x.com", "Favorites", [⟨"Heat", none⟩]⟩],
        nextId := 1 }
    ⟨0, "a@x.com", "Favorites", [⟨"Heat", none⟩]⟩ (by decide)
  exact (hc.2 (hc.1 (by decide))).1

/-- Claim C8: when exactly one poster is successfully fetched, no
resize is applied: the single image is the raw fetched one, emitted at
its original size, encoded as JPEG at quality 85 with content type
image/jpeg. -/
theorem C8_cover_single_poster (fetch : Fetch) (sess : Option String)
    (email : String) (h : sessionEmail sess = some email) (name : String)
    (st : Store) (w : Watchlist)
    (hfind : st.watchlists.find? (wlMatches email name) = some w)
    (p : PImage)
    (hcol : collectPosters fetch (w.movies.take 4) = .ok [p]) :
    get_watchlist_cover fetch sess name st = (.jpeg p 85, st) ∧
    (∃ r : RawImg, p = PImage.raw r ∧ p.width = r.width ∧
      p.height = r.height) ∧
    (CoverResult.jpeg p 85).mimetype = some "image/jpeg" := by
  refine ⟨?_, ?_, rfl⟩
  · simp [get_watchlist_cover, h, hfind, hcol]
  · rcases collectPosters_all_raw fetch (w.movies.take 4) [p] hcol p
      (List.mem_cons_self p []) with ⟨r, hr⟩
    subst hr
    exact ⟨r, rfl, rfl, rfl⟩

/-- Witness for C8: one movie with a poster, fetched at 500 x 750; the
cover is that raw image at quality 85, not resized. -/
theorem C8_cover_single_poster_witness :
    collectPosters (fun _ => .resp 200 ⟨7, 500, 750⟩)
        ([Movie.mk "Dune" (some "/d.jpg")].take 4) =
      .ok [PImage.raw ⟨7, 500, 750⟩] ∧
    get_watchlist_cover (fun _ => .resp 200 ⟨7, 500, 750⟩) (some "a@x.com")
        "Favorites"
        { Store.empty with
            watchlists :=
              [⟨0, "a@x.com", "Favorites", [⟨"Dune", some "/d.jpg"⟩]⟩],
            nextId := 1 } =
      (.jpeg (PImage.raw ⟨7, 500, 750⟩) 85,
       { Store.empty with
           watchlists :=
             [⟨0, "a@x.com", "Favorites", [⟨"Dune", some "/d.jpg"⟩]⟩],
           nextId := 1 }) ∧
    (PImage.raw (⟨7, 500, 750⟩ : RawImg)).width = 500 ∧
    (PImage.raw (⟨7, 500, 750⟩ : RawImg)).height = 750 := by
  refine ⟨rfl, ?_, rfl, rfl⟩
  exact (C8_cover_single_poster (fun _ => .resp 200 ⟨7, 500, 750⟩)
    (some "a@x.com") "a@x.com" rfl "Favorites"
    { Store.empty with
        watchlists :=
          [⟨0, "a@x.com", "Favorites", [⟨"Dune", some "/d.jpg"⟩]⟩],
        nextId := 1 }
    ⟨0, "a@x.com", "Favorites", [⟨"Dune", some "/d.jpg"⟩]⟩ (by decide)
    (PImage.raw ⟨7, 500, 750⟩) rfl).1

/-- Claim C4: when 2 to 4 posters were fetched, renderCover composes a
blank RGB canvas of size (600*cols, 900*rows) with cols = min(2, n) and
rows = ceil(n/cols); every poster is resized to 600 x 900 and pasted at
row-major grid position (i // cols, i % cols) — pixel offset
(600*(i % cols), 900*(i // cols)) — in original movie-sequence order,
with unfilled cells receiving no paste, and the result is encoded as
JPEG at quality 85. -/
theorem C4_cover_grid (fetch : Fetch) (sess : Option String)
    (email : String) (h : sessionEmail sess = some email) (name : String)
    (st : Store) (w : Watchlist)
    (hfind : st.watchlists.find? (wlMatches email name) = some w)
    (ps : List PImage)
    (hcol : collectPosters fetch (w.movies.take 4) = .ok ps)
    (h2 : 2 ≤ ps.length) (h4 : ps.length ≤ 4) :
    get_watchlist_cover fetch sess name st =
      (.jpeg (composeCollage ps) 85, st) ∧
    (composeCollage ps).base =
      PImage.new "RGB" (600 * min 2 ps.length)
        (900 * ((ps.length + min 2 ps.length - 1) / min 2 ps.length)) ∧
    (composeCollage ps).width = 600 * min 2 ps.length ∧
    (composeCollage ps).height =
      900 * ((ps.length + min 2 ps.length - 1) / min 2 ps.length) ∧
    (composeCollage ps).pastes =
      ps.enum.map (fun pr =>
        (PImage.resize pr.2 600 900,
         (pr.1 % min 2 ps.length) * 600,
         (pr.1 / min 2 ps.length) * 900)) := by
  refine ⟨?_, ?_, ?_, ?_, ?_⟩
  · rcases ps with _ | ⟨a, _ | ⟨b, r⟩⟩
    · exact absurd h2 (by simp)
    · exact absurd h2 (by simp)
    · simp [get_watchlist_cover, h, hfind, hcol]
  · rw [composeCollage, pasteFold_base]
    rfl
  · rw [composeCollage, pasteFold_width]
    rfl
  · rw [composeCollage, pasteFold_height]
    rfl
  · rw [composeCollage, pasteFold_pastes, enum_map_pimage]
    simp [PImage.pastes, List.map_map, Function.comp]

/-- Witness for C4 at 3 fetched posters: a 1200 x 1800 RGB canvas whose
pastes sit at offsets (0,0), (600,0) and (0,900) in sequence order; the
fourth cell at (600,900) receives no paste. -/
theorem C4_cover_grid_witness :
    collectPosters (fun u => .resp 200 ⟨u.length, 500, 750⟩)
        ([Movie.mk "A" (some "/a.jpg"), Movie.mk "B" (some "/bb.jpg"),
          Movie.mk "C" (some "/ccc.jpg")].take 4) =
      .ok [PImage.raw ⟨37, 500, 750⟩, PImage.raw ⟨38, 500, 750⟩,
           PImage.raw ⟨39, 500, 750⟩] ∧
    get_watchlist_cover (fun u => .resp 200 ⟨u.length, 500, 750⟩)
        (some "a@x.com") "Favorites"
        { Store.empty with
            watchlists :=
              [⟨0, "a@x.com", "Favorites",
                 [⟨"A", some "/a.jpg"⟩, ⟨"B", some "/bb.jpg"⟩,
                  ⟨"C", some "/ccc.jpg"⟩]⟩],
            nextId := 1 } =
      (.jpeg (composeCollage
          [PImage.raw ⟨37, 500, 750⟩, PImage.raw ⟨38, 500, 750⟩,
           PImage.raw ⟨39, 500, 750⟩]) 85,
       { Store.empty with
           watchlists :=
             [⟨0, "a@x.com", "Favorites",
                [⟨"A", some "/a.jpg"⟩, ⟨"B", some "/bb.jpg"⟩,
                 ⟨"C", some "/ccc.jpg"⟩]⟩],
           nextId := 1 }) ∧
    (composeCollage
        [PImage.raw ⟨37, 500, 750⟩, PImage.raw ⟨38, 500, 750⟩,
         PImage.raw ⟨39, 500, 750⟩]).width = 1200 ∧
    (composeCollage
        [PImage.raw ⟨37, 500, 750⟩, PImage.raw ⟨38, 500, 750⟩,
         PImage.raw ⟨39, 500, 750⟩]).height = 1800 ∧
    (composeCollage
        [PImage.raw ⟨37, 500, 750⟩, PImage.raw ⟨38, 500, 750⟩,
         PImage.raw ⟨39, 500, 750⟩]).pastes =
      [(PImage.resize (PImage.raw ⟨37, 500, 750⟩) 600 900, 0, 0),
       (PImage.resize (PImage.raw ⟨38, 500, 750⟩) 600 900, 600, 0),
       (PImage.resize (PImage.raw ⟨39, 500, 750⟩) 600 900, 0, 900)] := by
  refine ⟨rfl, ?_, by decide, by decide, by decide⟩
  exact (C4_cover_grid (fun u => .resp 200 ⟨u.length, 500, 750⟩)
    (some "a@x.com") "a@x.com" rfl "Favorites"
    { Store.empty with
        watchlists :=
          [⟨0, "a@x.com", "Favorites",
             [⟨"A", some "/a.jpg"⟩, ⟨"B", some "/bb.jpg"⟩,
              ⟨"C", some "/ccc.jpg"⟩]⟩],
        nextId := 1 }
    ⟨0, "a@x.com", "Favorites",
       [⟨"A", some "/a.jpg"⟩, ⟨"B", some "/bb.jpg"⟩,
        ⟨"C", some "/ccc.jpg"⟩]⟩ (by decide)
    [PImage.raw ⟨37, 500, 750⟩, PImage.raw ⟨38, 500, 750⟩,
     PImage.raw ⟨39, 500, 750⟩] rfl (by decide) (by decide)).1

/-- Counterexample to claim C3 as stated: with an authenticated session
and an existing single-movie watchlist, a poster fetch that raises (a
connection failure — `requests.get` is not wrapped in any try/except)
does NOT silently exclude the poster: the whole request fails with an
unhandled exception instead of degrading to fewer posters or the
default image. -/
theorem C3_fetch_failure_counterexample :
    get_watchlist_cover (fun _ => .raised) (some "a@x.com") "Favorites"
        { Store.empty with
            watchlists :=
              [⟨0, "a@x.com", "Favorites", [⟨"Dune", some "/d.jpg"⟩]⟩],
            nextId := 1 } =
      (.raised,
       { Store.empty with
           watchlists :=
             [⟨0, "a@x.com", "Favorites", [⟨"Dune", some "/d.jpg"⟩]⟩],
           nextId := 1 }) ∧
    CoverResult.raised ≠ CoverResult.defaultCover ∧
    (∀ (p : PImage) (q : Nat), CoverResult.raised ≠ CoverResult.jpeg p q) ∧
    CoverResult.raised.mimetype = none := by
  refine ⟨rfl, by decide, ?_, rfl⟩
  intro p q hpq
  exact CoverResult.noConfusion hpq

/-- Claim C3 (amended): only the first 4 movies of the watchlist are
poster candidates, and a completed non-2xx (in fact any non-200)
response for one poster silently excludes that poster without failing
the request; however a poster fetch that raises — connection failure or
timeout — is not absorbed: it propagates out of the handler as an
unhandled error instead of degrading the output. -/
theorem C3_cover_poster_selection (fetch : Fetch) (sess : Option String)
    (email : String) (h : sessionEmail sess = some email) (name : String)
    (st : Store) (w : Watchlist)
    (hfind : st.watchlists.find? (wlMatches email name) = some w) :
    (∀ (st' : Store) (w' : Watchlist),
      st'.watchlists.find? (wlMatches email name) = some w' →
      w'.movies.take 4 = w.movies.take 4 →
      (get_watchlist_cover fetch sess name st).1 =
        (get_watchlist_cover fetch sess name st').1) ∧
    ((∀ m ∈ w.movies.take 4, m.hasPoster = true →
        fetch (posterUrl (m.poster_path.getD "")) ≠ .raised) →
      collectPosters fetch (w.movies.take 4) =
        .ok (postersSpec fetch (w.movies.take 4)) ∧
      (get_watchlist_cover fetch sess name st).1.mimetype =
        some "image/jpeg") ∧
    (collectPosters fetch (w.movies.take 4) = .error () →
      (get_watchlist_cover fetch sess name st).1 = .raised ∧
      CoverResult.raised.mimetype = none) := by
  refine ⟨?_, ?_, ?_⟩
  · intro st' w' hf' htake
    simp only [get_watchlist_cover, h, hfind, hf', htake]
    rcases hX : collectPosters fetch (w.movies.take 4) with u | ps
    · simp
    · rcases ps with _ | ⟨a, _ | ⟨b, r⟩⟩ <;> simp
  · intro hnr
    have hc := collectPosters_eq_spec fetch (w.movies.take 4) hnr
    refine ⟨hc, ?_⟩
    simp only [get_watchlist_cover, h, hfind, hc]
    rcases postersSpec fetch (w.movies.take 4) with _ | ⟨a, _ | ⟨b, r⟩⟩ <;>
      simp [CoverResult.mimetype]
  · intro hcerr
    refine ⟨?_, rfl⟩
    simp [get_watchlist_cover, h, hfind, hcerr]

/-- Witness for the amended C3: a watchlist of 5 movies whose fetches
all complete, with only the first and the fifth returning 200; the
fifth movie is beyond the 4-movie cap and the third's 404 is silently
excluded, so exactly one poster (the first) survives and the request
still succeeds with an image/jpeg response. -/
theorem C3_cover_poster_selection_witness :
    collectPosters
        (fun u => if u = posterUrl "/a.jpg" ∨ u = posterUrl "/e.jpg" then
          .resp 200 ⟨1, 500, 750⟩ else .resp 404 ⟨2, 500, 750⟩)
        ([Movie.mk "A" (some "/a.jpg"), Movie.mk "B" none,
          Movie.mk "C" (some "/c.jpg"), Movie.mk "D" none,
          Movie.mk "E" (some "/e.jpg")].take 4) =
      .ok (postersSpec
        (fun u => if u = posterUrl "/a.jpg" ∨ u = posterUrl "/e.jpg" then
          .resp 200 ⟨1, 500, 750⟩ else .resp 404 ⟨2, 500, 750⟩)
        ([Movie.mk "A" (some "/a.jpg"), Movie.mk "B" none,
          Movie.mk "C" (some "/c.jpg"), Movie.mk "D" none,
          Movie.mk "E" (some "/e.jpg")].take 4)) ∧
    postersSpec
        (fun u => if u = posterUrl "/a.jpg" ∨ u = posterUrl "/e.jpg" then
          .resp 200 ⟨1, 500, 750⟩ else .resp 404 ⟨2, 500, 750⟩)
        ([Movie.mk "A" (some "/a.jpg"), Movie.mk "B" none,
          Movie.mk "C" (some "/c.jpg"), Movie.mk "D" none,
          Movie.mk "E" (some "/e.jpg")].take 4) =
      [PImage.raw ⟨1, 500, 750⟩] ∧
    (get_watchlist_cover
        (fun u => if u = posterUrl "/a.jpg" ∨ u = posterUrl "/e.jpg" then
          .resp 200 ⟨1, 500, 750⟩ else .resp 404 ⟨2, 500, 750⟩)
        (some "a@x.com") "Favorites"
        { Store.empty with
            watchlists :=
              [⟨0, "a@x.com", "Favorites",
                 [⟨"A", some "/a.jpg"⟩, ⟨"B", none⟩, ⟨"C", some "/c.jpg"⟩,
                  ⟨"D", none⟩, ⟨"E", some "/e.jpg"⟩]⟩],
            nextId := 1 }).1.mimetype = some "image/jpeg" := by
  have hc := C3_cover_poster_selection
    (fun u => if u = posterUrl "/a.jpg" ∨ u = posterUrl "/e.jpg" then
      .resp 200 ⟨1, 500, 750⟩ else .resp 404 ⟨2, 500, 750⟩)
    (some "a@x.com") "a@x.com" rfl "Favorites"
    { Store.empty with
        watchlists :=
          [⟨0, "a@x.com", "Favorites",
             [⟨"A", some "/a.jpg"⟩, ⟨"B", none⟩, ⟨"C", some "/c.jpg"⟩,
              ⟨"D", none⟩, ⟨"E", some "/e.jpg"⟩]⟩],
        nextId := 1 }
    ⟨0, "a@x.com", "Favorites",
       [⟨"A", some "/a.jpg"⟩, ⟨"B", none⟩, ⟨"C", some "/c.jpg"⟩,
        ⟨"D", none⟩, ⟨"E", some "/e.jpg"⟩]⟩ (by decide)
  have hb := hc.2.1 (by decide)
  exact ⟨hb.1, by decide, hb.2⟩

/-- Claim C2: with an authenticated session owned by `email`,
listWatchlists and listEntries return exactly the rows whose owner is
`email`; getWatchlist and renderCover resolve their watchlist only
among the owner's rows (deleting every other owner's row changes
nothing) and never yield a foreign watchlist; addMovie leaves every
watchlist of a different owner untouched; and an owner may create a
watchlist under a name already used by a different owner, since the
duplicate check only consults the owner's rows. -/
theorem C2_owner_scoping (sess : Option String) (email : String)
    (h : sessionEmail sess = some email) (wname : String) (m : Movie)
    (fetch : Fetch) (st : Store) :
    get_watchlists sess st =
      (.ok (st.watchlists.filter (fun w => w.user_email == email)), st) ∧
    (∀ ws : List Watchlist, (get_watchlists sess st).1 = .ok ws →
      ∀ w ∈ ws, w.user_email = email) ∧
    get_journal_entries sess st =
      (.ok (st.journals.filter (fun j => j.user_email == email)), st) ∧
    (∀ js : List JournalEntry, (get_journal_entries sess st).1 = .ok js →
      ∀ j ∈ js, j.user_email = email) ∧
    (∀ w : Watchlist, (get_watchlist sess wname st).1 = .ok w →
      w.user_email = email) ∧
    (get_watchlist sess wname st).1 =
      (get_watchlist sess wname
        { st with
            watchlists :=
              st.watchlists.filter (fun w => w.user_email == email) }).1 ∧
    (get_watchlist_cover fetch sess wname st).1 =
      (get_watchlist_cover fetch sess wname
        { st with
            watchlists :=
              st.watchlists.filter (fun w => w.user_email == email) }).1 ∧
    (get_watchlist_cover fetch sess wname st).2 = st ∧
    ((add_movie_to_watchlist sess wname (some m) st).2).watchlists.length =
      st.watchlists.length ∧
    (∀ (i : Nat) (hi : i < st.watchlists.length)
      (hi' : i <
        ((add_movie_to_watchlist sess wname (some m) st).2).watchlists.length),
      (st.watchlists.get ⟨i, hi⟩).user_email ≠ email →
      ((add_movie_to_watchlist sess wname (some m) st).2).watchlists.get
          ⟨i, hi'⟩ =
        st.watchlists.get ⟨i, hi⟩) ∧
    ((∀ w ∈ st.watchlists, w.user_email = email → w.name ≠ wname) →
      (create_watchlist sess wname st).1 = .ok ⟨st.nextId, email, wname, []⟩) := by
  have himp : ∀ x : Watchlist, wlMatches email wname x = true →
      (x.user_email == email) = true := by
    intro x hx
    simp only [wlMatches, Bool.and_eq_true] at hx
    exact hx.1
  have hfq := find?_filter_of_imp (wlMatches email wname)
    (fun w => w.user_email == email) himp st.watchlists
  have hnew : ((add_movie_to_watchlist sess wname (some m) st).2).watchlists =
      (updateOnePush email wname m st.watchlists).1 := by
    by_cases hpos : 0 < (updateOnePush email wname m st.watchlists).2
    · simp [add_movie_to_watchlist, h, hpos]
    · simp [add_movie_to_watchlist, h, hpos]
  refine ⟨?_, ?_, ?_, ?_, ?_, ?_, ?_, ?_, ?_, ?_, ?_⟩
  · simp [get_watchlists, h]
  · intro ws hws
    simp only [get_watchlists, h] at hws
    simp only [Except.ok.injEq] at hws
    subst hws
    intro w hw
    exact eq_of_beq (List.mem_filter.mp hw).2
  · simp [get_journal_entries, h]
  · intro js hjs
    simp only [get_journal_entries, h] at hjs
    simp only [Except.ok.injEq] at hjs
    subst hjs
    intro j hj
    exact eq_of_beq (List.mem_filter.mp hj).2
  · intro w hw
    rcases hf : st.watchlists.find? (wlMatches email wname) with _ | w'
    · simp [get_watchlist, h, hf] at hw
    · have hval : w' = w := by
        simpa [get_watchlist, h, hf] using hw
      subst hval
      exact eq_of_beq (himp w' (List.find?_some hf))
  · simp only [get_watchlist, h]
    rw [hfq]
    rcases st.watchlists.find? (wlMatches email wname) with _ | w' <;> rfl
  · simp only [get_watchlist_cover, h]
    rw [hfq]
    rcases st.watchlists.find? (wlMatches email wname) with _ | w'
    · rfl
    · rcases hX : collectPosters fetch (w'.movies.take 4) with u | ps
      · simp [hX]
      · rcases ps with _ | ⟨a, _ | ⟨b, r⟩⟩ <;> simp [hX]
  · rcases hf : st.watchlists.find? (wlMatches email wname) with _ | w'
    · simp [get_watchlist_cover, h, hf]
    · rcases hX : collectPosters fetch (w'.movies.take 4) with u | ps
      · simp [get_watchlist_cover, h, hf, hX]
      · rcases ps with _ | ⟨a, _ | ⟨b, r⟩⟩ <;>
          simp [get_watchlist_cover, h, hf, hX]
  · rw [hnew, updateOnePush_length]
  · intro i hi hi' hne
    have hi2 : i < (updateOnePush email wname m st.watchlists).1.length := by
      rw [updateOnePush_length]; exact hi
    rcases updateOnePush_get email wname m st.watchlists i hi hi2 with
      heq | hmatch
    · rw [List.get_of_eq hnew ⟨i, hi'⟩]
      exact heq
    · exact absurd (eq_of_beq (himp _ hmatch)) hne
  · intro hnone
    have hfind : st.watchlists.find? (wlMatches email wname) = none := by
      rw [List.find?_eq_none]
      intro x hx hmx
      simp only [wlMatches, Bool.and_eq_true] at hmx
      exact hnone x hx (eq_of_beq hmx.1) (eq_of_beq hmx.2)
    simp [create_watchlist, h, hfind]

/-- Witness for C2: a store holding one watchlist each for b@y.com and
a@x.com plus a journal entry of b@y.com; the session owner a@x.com
lists only their own rows, and may create a watchlist named "Favorites"
even though b@y.com already owns one of that name. -/
theorem C2_owner_scoping_witness :
    sessionEmail (some "a@x.com") = some "a@x.com" ∧
    get_watchlists (some "a@x.com")
        { Store.empty with
            watchlists :=
              [⟨0, "b@y.com", "Favorites", []⟩, ⟨1, "a@x.com", "Watched", []⟩],
            journals := [⟨0, "b@y.com", "Heat", "fine", "2024-01-01"⟩],
            nextId := 2 } =
      (.ok [⟨1, "a@x.com", "Watched", []⟩],
       { Store.empty with
           watchlists :=
             [⟨0, "b@y.com", "Favorites", []⟩, ⟨1, "a@x.com", "Watched", []⟩],
           journals := [⟨0, "b@y.com", "Heat", "fine", "2024-01-01"⟩],
           nextId := 2 }) ∧
    (create_watchlist (some "a@x.com") "Favorites"
        { Store.empty with
            watchlists :=
              [⟨0, "b@y.com", "Favorites", []⟩, ⟨1, "a@x.com", "Watched", []⟩],
            journals := [⟨0, "b@y.com", "Heat", "fine", "2024-01-01"⟩],
            nextId := 2 }).1 =
      .ok ⟨2, "a@x.com", "Favorites", []⟩ := by
  have hc := C2_owner_scoping (some "a@x.com") "a@x.com" rfl "Favorites"
    ⟨"Dune", some "/d.jpg"⟩ (fun _ => .raised)
    { Store.empty with
        watchlists :=
          [⟨0, "b@y.com", "Favorites", []⟩, ⟨1, "a@x.com", "Watched", []⟩],
        journals := [⟨0, "b@y.com", "Heat", "fine", "2024-01-01"⟩],
        nextId := 2 }
  refine ⟨rfl, ?_, ?_⟩
  · have := hc.1
    simpa using this
  · exact hc.2.2.2.2.2.2.2.2.2.2 (by decide)

end FeelOCinema
